import Mathlib

/-!
Verification development for pkg/minikube/cluster/cluster.go: a shallow
embedding of the host lifecycle controller, clock synchronizer, network
address resolver and their helpers, together with theorems settling the
frozen claims about this code.

External collaborators (the libmachine API and store, drivers, the remote
command channel, the process environment) are modelled as oracles: pure
response values or response functions carried in an environment structure.
Each embedded function returns its Go result together with a trace of the
externally visible operations it performed, in order.

Go multi-value returns of the shape (value, error) are modelled by the
GoResult type below; a Go runtime panic (nil-pointer dereference, index out
of range) is the GoResult.panics constructor.
-/

namespace MinikubeCluster

/-- Lifecycle states of the libmachine state package (external collaborator):
None, Running, Paused, Saved, Stopped, Stopping, Starting, Error. -/
inductive MachineState where
  | noneSt
  | running
  | paused
  | saved
  | stopped
  | stopping
  | starting
  | errored
deriving DecidableEq, Repr

/-- Modelled from the spec: the string form of each libmachine lifecycle state,
state.State.String(), used by GetHostStatus and compared by DeleteHost. -/
def stateString : MachineState → String
  | .noneSt => "None"
  | .running => "Running"
  | .paused => "Paused"
  | .saved => "Saved"
  | .stopped => "Stopped"
  | .stopping => "Stopping"
  | .starting => "Starting"
  | .errored => "Error"

/-- Go error values as this file distinguishes them: plain messages
(errors.New / fmt.Errorf), context wrapping (errors.Wrap / errors.Wrapf),
the retriable wrapper (retry.RetriableError), and the two concrete
libmachine error types the code matches on. -/
inductive GoErr where
  | simple (msg : String)
  | wrap (ctx : String) (cause : GoErr)
  | retriable (cause : GoErr)
  | hostAlreadyInState (s : MachineState)
  | hostDoesNotExist (name : String)
deriving DecidableEq, Repr

/-- Outcome of a Go call returning (value, error): ok is (v, nil), err is
(zero, e), okErr is a non-nil value together with a non-nil error, and
panics is a Go runtime panic unwinding the call. -/
inductive GoResult (α : Type) where
  | ok (val : α)
  | okErr (val : α) (e : GoErr)
  | err (e : GoErr)
  | panics (msg : String)
deriving DecidableEq

/-- The value component of a Go (value, error) pair; none is a nil value. -/
def GoResult.valueOpt {α : Type} : GoResult α → Option α
  | .ok a => some a
  | .okErr a _ => some a
  | .err _ => none
  | .panics _ => none

/-- The error component of a Go (value, error) pair. -/
def GoResult.errOpt {α : Type} : GoResult α → Option GoErr
  | .ok _ => none
  | .okErr _ e => some e
  | .err e => some e
  | .panics _ => none

/-- Message used for Go nil-pointer dereference panics. -/
def nilDerefMsg : String := "runtime error: invalid memory address or nil pointer dereference"

/-- Message used for Go index-out-of-range panics. -/
def indexOutOfRangeMsg : String := "runtime error: index out of range"

/-- Externally visible operations, recorded in order by the embedding. -/
inductive Event where
  | acquireLock (key : String)
  | releaseLock
  | apiExists (name : String)
  | apiLoad (name : String)
  | apiNewHost (kind : String)
  | apiCreate
  | apiSave
  | apiRemove (name : String)
  | driverGetState
  | driverStart
  | driverStop
  | driverRemove
  | driverGetIP
  | runCmd (argv : List String)
  | ssh (cmd : String)
  | execProg (prog : String) (argv : List String)
  | ifaceLookup (name : String)
  | provisionEv
  | configureAuthEv
  | configureBegin
deriving DecidableEq, Repr

/-! ## Driver kinds (pkg/minikube/driver constants, referenced by name) -/

namespace driver

def Mock : String := "mock"

def NoneDriver : String := "none"

def Docker : String := "docker"

def KVM2 : String := "kvm2"

def HyperV : String := "hyperv"

def VirtualBox : String := "virtualbox"

def HyperKit : String := "hyperkit"

def VMware : String := "vmware"

def VMwareFusion : String := "vmwarefusion"

end driver

/-- Modelled from the spec: driver.BareMetal (pkg/minikube/driver, not under
src/). Bare-metal backends are those with no isolation: the none driver and
the mock test driver. -/
def BareMetal (name : String) : Bool :=
  name == driver.NoneDriver || name == driver.Mock

/-- Modelled from the spec: driver.IsKIC (pkg/minikube/driver, not under
src/). Container-backed (kubernetes-in-container) backends: the docker
driver. -/
def IsKIC (name : String) : Bool :=
  name == driver.Docker

/-! ## Guest directories (vmpath constants, cluster.go:76-86) -/

/-- path.Join for the clean absolute segments used here. -/
def pathJoin (a b : String) : String := a ++ "/" ++ b

/-- Modelled from the spec: pkg/minikube/vmpath constants (not under src/),
the fixed guest roots named by requiredDirectories. -/
def GuestAddonsDir : String := "/etc/kubernetes/addons"

/-- Modelled from the spec: guest manifests directory (vmpath constant). -/
def GuestManifestsDir : String := "/etc/kubernetes/manifests"

/-- Modelled from the spec: guest ephemeral directory (vmpath constant). -/
def GuestEphemeralDir : String := "/var/tmp/minikube"

/-- Modelled from the spec: guest persistent directory (vmpath constant). -/
def GuestPersistentDir : String := "/var/lib/minikube"

/-- Modelled from the spec: guest certificates directory (vmpath constant). -/
def GuestCertsDir : String := "/var/lib/minikube/certs"

/-- requiredDirectories (cluster.go:77-85): directories to create on the host
during setup. -/
def requiredDirectories : List String :=
  [GuestAddonsDir,
   GuestManifestsDir,
   GuestEphemeralDir,
   GuestPersistentDir,
   GuestCertsDir,
   pathJoin GuestPersistentDir ("images"),
   pathJoin GuestPersistentDir ("binaries")]

/-! ## Data model -/

/-- engine.Options fields consumed by this file. -/
structure EngineOptions where
  Env : List String
  InsecureRegistry : List String
  RegistryMirror : List String
  ArbitraryFlags : List String
  InstallURL : String

/-- config.MachineConfig fields consumed by this file. -/
structure MachineConfig where
  Name : String
  VMDriver : String
  DockerEnv : List String
  DockerOpt : List String
  InsecureRegistry : List String
  RegistryMirror : List String

/-- Behavior oracles of a loaded libmachine driver (h.Driver): each field is
the response the external backend would give to the corresponding call. -/
structure DriverOps where
  dname : String
  getState : GoResult MachineState
  startDrv : GoResult Unit
  removeDrv : GoResult Unit
  getIP : GoResult String
  detectProvisioner : GoResult Unit
  provisionRun : GoResult Unit
  newSSHClient : GoResult Unit
  runCmd : List String → GoResult String

/-- A loaded host.Host record: persisted fields plus the behavior oracles of
its driver, its libmachine Stop and ConfigureAuth operations, and its remote
shell channel. -/
structure Host where
  Name : String
  DriverName : String
  RawDriver : String
  Driver : DriverOps
  hostStop : GoResult Unit
  configureAuth : GoResult Unit
  runSSHCommand : String → GoResult String
  AuthCertDir : String
  AuthStorePath : String
  EngineOpts : EngineOptions

/-- The libmachine API / host store oracle (api argument of the lifecycle
functions), responses keyed on the machine name. -/
structure APIOracle where
  existsH : String → GoResult Bool
  load : String → GoResult Host
  newHost : String → String → GoResult Host
  create : Host → GoResult Unit
  save : Host → GoResult Unit
  remove : String → GoResult Unit

/-- A net.Addr as this file inspects it: either a *net.IPNet carrying an IP
(a list of bytes), or some other address kind. -/
inductive NetAddr where
  | ipNet (ip : List Nat)
  | otherAddr
deriving DecidableEq, Repr

/-- A net.Interface handle: its Addrs() response (address list plus error;
on error Go yields a nil slice, modelled as the paired list being empty). -/
structure NetIface where
  addrs : List NetAddr × Option GoErr

/-- A time.Time instant, as nanoseconds since the Unix epoch. The int64
saturation of time.Time.Sub at about 292 years and the int64 second field
are not modelled; the claims concern deltas near 2.1 seconds. -/
structure GoTime where
  nano : Int
deriving DecidableEq, Repr

/-- time.Time.Unix(): whole seconds since the epoch (floor division, since
Go normalizes the nanosecond field into the range 0 to 1e9). -/
def GoTime.unix (t : GoTime) : Int := Int.fdiv t.nano 1000000000

/-- A time.Duration: a signed count of nanoseconds. -/
abbrev Duration := Int

/-- The world outside the cluster package, as response oracles: the store
API, the machines-lock acquisition, process-global configuration, the two
time.Now() samples taken by the clock synchronizer, local network interface
lookup and external program execution. -/
structure Env where
  api : APIOracle
  acquireRes : GoResult Unit
  miniPath : String
  profileName : String
  configJSON : String → Option (MachineConfig → GoResult String)
  nowMeasure : GoTime
  nowSet : GoTime
  interfaceByName : String → GoResult NetIface
  execProgram : String → List String → GoResult String

/-! ## String helpers over character lists

These model the strings and strconv operations the source uses. They are
written over List Char (String.data) so that all proofs reduce in the
kernel. -/

/-- The ASCII white space characters trimmed by strings.TrimSpace (the
non-ASCII Unicode space characters do not occur in the outputs modelled
here). -/
def goIsSpace (c : Char) : Bool :=
  c == ' ' || c == '\t' || c == '\n' || c == '\r' || c == '\x0b' || c == '\x0c'

/-- strings.TrimSpace on a character list. -/
def trimChars (l : List Char) : List Char :=
  ((l.dropWhile goIsSpace).reverse.dropWhile goIsSpace).reverse

/-- strings.Split with a one-character separator: always returns at least
one piece. -/
def splitOnChar (sep : Char) : List Char → List (List Char)
  | [] => [[]]
  | c :: cs =>
    let r := splitOnChar sep cs
    if c == sep then [] :: r
    else
      match r with
      | [] => [[c]]
      | piece :: rest => (c :: piece) :: rest

/-- Decimal digit value of a character, if it is a digit. -/
def digitVal (c : Char) : Option Nat :=
  if '0' ≤ c && c ≤ '9' then some (c.toNat - ('0').toNat) else none

/-- Accumulates the decimal value of a digit run; none on a non-digit. -/
def digitsValAux (acc : Nat) : List Char → Option Nat
  | [] => some acc
  | c :: cs =>
    match digitVal c with
    | some d => digitsValAux (acc * 10 + d) cs
    | none => none

/-- strconv.ParseInt(s, 10, 64): optional sign, a nonempty run of decimal
digits, and an int64 range check; syntax and range failures are errors. -/
def parseInt64 (l : List Char) : Except GoErr Int :=
  let signSplit : Bool × List Char :=
    match l with
    | '+' :: r => (false, r)
    | '-' :: r => (true, r)
    | r => (false, r)
  match signSplit.2 with
  | [] => .error (.simple ("invalid syntax"))
  | ds =>
    match digitsValAux 0 ds with
    | none => .error (.simple ("invalid syntax"))
    | some v =>
      if signSplit.1 then
        if v ≤ 9223372036854775808 then .ok (-(v : Int))
        else .error (.simple ("value out of range"))
      else
        if v ≤ 9223372036854775807 then .ok (v : Int)
        else .error (.simple ("value out of range"))

/-! ## Clock synchronizer (cluster.go:71-268) -/

/-- maxClockDesyncSeconds (cluster.go:74): the maximum the guest clock may
be ahead or behind, in seconds. The source stores the float64 2.1; for
every integer-nanosecond duration the float64 comparison of cluster.go:229
agrees with the exact rational comparison against 21/10, because doubles
near 2.1 are about 4.4e-16 apart while every off-boundary nanosecond grid
point is at least 1e-9 away from 2.1, and the boundary point compares equal
on both sides. -/
def maxClockDesyncSeconds : ℚ := 21 / 10

/-- Duration.Seconds(): the duration as (rational) seconds. -/
def durationSecondsQ (d : Duration) : ℚ := (d : ℚ) / 1000000000

/-- math.Abs over the rationals. -/
def absQ (q : ℚ) : ℚ := if q < 0 then -q else q

/-- The tolerance test of cluster.go:229, math.Abs(d.Seconds()) is less than
maxClockDesyncSeconds, computed over the integers: equivalent to the
rational form by lemma desyncWithinTolerance_iff below. -/
def desyncWithinTolerance (d : Duration) : Bool :=
  10 * d.natAbs < 21000000000

/-- The ssh command issued to read the guest clock (cluster.go:242). -/
def clockQueryCmd : String := "date +%s.%N"

/-- guestClockDelta (cluster.go:241-261): runs the clock query over ssh,
splits the trimmed output on the dot, parses the seconds field, indexes the
fraction field (a Go index-out-of-range panic when the output has no dot),
parses it, and returns remote minus local in nanoseconds. Query and parse
failures are wrapped errors. -/
def guestClockDelta (run : String → GoResult String) (localTime : GoTime) :
    GoResult Duration × List Event :=
  let ev := [Event.ssh clockQueryCmd]
  match run clockQueryCmd with
  | .err e => (.err (.wrap ("get clock") e), ev)
  | .okErr _ e => (.err (.wrap ("get clock") e), ev)
  | .panics m => (.panics m, ev)
  | .ok outp =>
    let ns := splitOnChar ('.') (trimChars outp.data)
    match parseInt64 (trimChars (ns.headD [])) with
    | .error e => (.err (.wrap ("atoi") e), ev)
    | .ok secs =>
      match ns.get? 1 with
      | none => (.panics indexOutOfRangeMsg, ev)
      | some frac =>
        match parseInt64 (trimChars frac) with
        | .error e => (.err (.wrap ("atoi") e), ev)
        | .ok nsecs =>
          let remote : GoTime := ⟨secs * 1000000000 + nsecs⟩
          (.ok (remote.nano - localTime.nano), ev)

/-- The ssh command issued to set the guest clock to the local integer epoch
second (cluster.go:265). -/
def clockSetCmd (t : GoTime) : String := "sudo date -s @" ++ toString t.unix

/-- adjustGuestClock (cluster.go:264-268): sets the guest clock over ssh and
returns the command error verbatim. -/
def adjustGuestClock (run : String → GoResult String) (t : GoTime) :
    GoResult Unit × List Event :=
  let ev := [Event.ssh (clockSetCmd t)]
  match run (clockSetCmd t) with
  | .ok _ => (.ok (), ev)
  | .okErr _ e => (.err e, ev)
  | .err e => (.err e, ev)
  | .panics m => (.panics m, ev)

/-- ensureSyncedGuestClock (cluster.go:223-237): measure the delta; on a
measurement error log a warning and return nil; within tolerance return
nil; otherwise adjust the clock, wrapping an adjustment failure as the
returned error. -/
def ensureSyncedGuestClock (run : String → GoResult String)
    (nowMeasure nowSet : GoTime) : GoResult Unit × List Event :=
  let m := guestClockDelta run nowMeasure
  match m.1 with
  | .err _ => (.ok (), m.2)
  | .okErr _ _ => (.ok (), m.2)
  | .panics msg => (.panics msg, m.2)
  | .ok d =>
    if desyncWithinTolerance d then (.ok (), m.2)
    else
      let a := adjustGuestClock run nowSet
      match a.1 with
      | .ok _ => (.ok (), m.2 ++ a.2)
      | .okErr _ e => (.err (.wrap ("adjusting system clock") e), m.2 ++ a.2)
      | .err e => (.err (.wrap ("adjusting system clock") e), m.2 ++ a.2)
      | .panics msg => (.panics msg, m.2 ++ a.2)

/-- Recognizes a clock-correction command among trace events. -/
def isCorrectionCmd (ev : Event) : Bool :=
  match ev with
  | .ssh c => ("sudo date -s @").data.isPrefixOf c.data
  | _ => false

/-! ## Lock manager (cluster.go:171-184) -/

/-- A juju mutex.Spec as consumed here: a scope key plus acquisition
timeout and retry delay in nanoseconds. -/
structure MutexSpec where
  key : String
  timeout : Int
  delay : Int
deriving DecidableEq, Repr

/-- filepath.Join for the clean segments used here. -/
def filepathJoin (a b : String) : String := a ++ "/" ++ b

/-- Modelled from the spec: lock.PathMutexSpec (pkg/util/lock, not under
src/) derives a mutual-exclusion spec whose scope key is a function of the
given path alone (the source hashes the path into the spec name), with a
13ms retry delay and no timeout yet. -/
def PathMutexSpec (p : String) : MutexSpec :=
  { key := p, timeout := 0, delay := 13000000 }

/-- acquireMachinesLock (cluster.go:172-184): builds the lock spec over the
shared machines storage directory and sets a 10 minute timeout. The name
argument is used only in log lines (cluster.go:177-181). -/
def acquireMachinesLockSpec (miniPath : String) (_name : String) : MutexSpec :=
  let spec := PathMutexSpec (filepathJoin miniPath ("machines"))
  { spec with timeout := 10 * 60 * 1000000000 }

/-! ## Engine options (cluster.go:411-420) -/

/-- Modelled from the spec: constants.DefaultServiceCIDR (not under src/). -/
def DefaultServiceCIDR : String := "10.96.0.0/12"

/-- Modelled from the spec: drivers.DefaultEngineInstallURL (libmachine). -/
def DefaultEngineInstallURL : String := "https://get.docker.com"

/-- engineOptions (cluster.go:411-420). -/
def engineOptions (cfg : MachineConfig) : EngineOptions :=
  { Env := cfg.DockerEnv
    InsecureRegistry := DefaultServiceCIDR :: cfg.InsecureRegistry
    RegistryMirror := cfg.RegistryMirror
    ArbitraryFlags := cfg.DockerOpt
    InstallURL := DefaultEngineInstallURL }

/-! ## Command channel selector and required directories (cluster.go:708-744) -/

/-- commandRunner (cluster.go:728-744): the best available command runner
for a host. The mock driver gets an unconfigured fake runner whose commands
fail by design; bare-metal drivers a local exec runner; the docker driver a
container-exec runner; all others a remote shell runner, whose client
construction can fail fatally. The exec, container and shell runners are
the runCmd oracle of the driver. -/
def commandRunner (h : Host) : GoResult (List String → GoResult String) :=
  if h.DriverName == driver.Mock then
    .ok (fun _ => .err (.simple ("unconfigured FakeCommandRunner")))
  else if BareMetal h.Driver.dname then
    .ok h.Driver.runCmd
  else if h.Driver.dname == driver.Docker then
    .ok h.Driver.runCmd
  else
    match h.Driver.newSSHClient with
    | .ok _ => .ok h.Driver.runCmd
    | .okErr _ e => .err (.wrap ("getting ssh client for bootstrapper") e)
    | .err e => .err (.wrap ("getting ssh client for bootstrapper") e)
    | .panics m => .panics m

/-- createRequiredDirectories (cluster.go:709-725): skipped for the mock
driver; otherwise select a runner and run sudo mkdir -p over the required
directory list. -/
def createRequiredDirectories (h : Host) : GoResult Unit × List Event :=
  if h.DriverName == driver.Mock then (.ok (), [])
  else
    match commandRunner h with
    | .err e => (.err (.wrap ("command runner") e), [])
    | .okErr _ e => (.err (.wrap ("command runner") e), [])
    | .panics m => (.panics m, [])
    | .ok r =>
      let argv := "sudo" :: "mkdir" :: "-p" :: requiredDirectories
      let ev := [Event.runCmd argv]
      match r argv with
      | .ok _ => (.ok (), ev)
      | .okErr _ e =>
        (.err (.wrap ("sudo mkdir (" ++ h.DriverName ++ ")") e), ev)
      | .err e =>
        (.err (.wrap ("sudo mkdir (" ++ h.DriverName ++ ")") e), ev)
      | .panics m => (.panics m, ev)

/-! ## configureHost (cluster.go:186-220) -/

/-- The tail of configureHost (cluster.go:211-219): bare-metal drivers skip
auth and clock setup; otherwise configure auth (failure wrapped retriable)
and synchronize the guest clock. -/
def configureHostAuthClock (h : Host) (nowMeasure nowSet : GoTime) :
    GoResult Unit × List Event :=
  if BareMetal h.Driver.dname then (.ok (), [])
  else
    match h.configureAuth with
    | .ok _ =>
      let c := ensureSyncedGuestClock h.runSSHCommand nowMeasure nowSet
      (c.1, Event.configureAuthEv :: c.2)
    | .okErr _ e =>
      (.err (.retriable (.wrap ("Error configuring auth on host") e)),
       [Event.configureAuthEv])
    | .err e =>
      (.err (.retriable (.wrap ("Error configuring auth on host") e)),
       [Event.configureAuthEv])
    | .panics m => (.panics m, [Event.configureAuthEv])

/-- configureHost (cluster.go:187-220): create the required directories,
where the wrapped error is computed and discarded (cluster.go:194-196);
when engine environment variables are present, install them on the host
record and provision; then run the auth and clock tail. Returns the
(possibly updated) host on success; the Go source mutates it through a
pointer and returns only the error. -/
def configureHost (h : Host) (e : EngineOptions) (nowMeasure nowSet : GoTime) :
    GoResult Host × List Event :=
  let rd := createRequiredDirectories h
  let t0 := Event.configureBegin :: rd.2
  if 0 < e.Env.length then
    let h1 : Host := { h with EngineOpts := { h.EngineOpts with Env := e.Env } }
    match h1.Driver.detectProvisioner with
    | .err er => (.err (.wrap ("detecting provisioner") er), t0)
    | .okErr _ er => (.err (.wrap ("detecting provisioner") er), t0)
    | .panics m => (.panics m, t0)
    | .ok _ =>
      match h1.Driver.provisionRun with
      | .err er => (.err (.wrap ("provision") er), t0 ++ [Event.provisionEv])
      | .okErr _ er => (.err (.wrap ("provision") er), t0 ++ [Event.provisionEv])
      | .panics m => (.panics m, t0 ++ [Event.provisionEv])
      | .ok _ =>
        let c := configureHostAuthClock h1 nowMeasure nowSet
        (match c.1 with
         | .ok _ => .ok h1
         | .okErr _ er => .err er
         | .err er => .err er
         | .panics m => .panics m,
         t0 ++ [Event.provisionEv] ++ c.2)
  else
    let c := configureHostAuthClock h nowMeasure nowSet
    (match c.1 with
     | .ok _ => .ok h
     | .okErr _ er => .err er
     | .err er => .err er
     | .panics m => .panics m,
     t0 ++ c.2)

/-! ## trySSHPowerOff and StopHost (cluster.go:270-320) -/

/-- trySSHPowerOff (cluster.go:271-287): a state query failure is logged
and returned; a non-running host is left alone; a running host gets a
best-effort ssh poweroff whose result is ignored (poweroff always errors as
the connection drops). -/
def trySSHPowerOff (h : Host) : GoResult Unit × List Event :=
  match h.Driver.getState with
  | .err e => (.err e, [Event.driverGetState])
  | .okErr _ e => (.err e, [Event.driverGetState])
  | .panics m => (.panics m, [Event.driverGetState])
  | .ok s =>
    if s != MachineState.running then (.ok (), [Event.driverGetState])
    else
      let ev := [Event.driverGetState, Event.ssh ("sudo poweroff")]
      match h.runSSHCommand ("sudo poweroff") with
      | .panics m => (.panics m, ev)
      | _ => (.ok (), ev)

/-- Tests the type assertion plus state check of cluster.go:313-316: the
stop error is the concrete libmachine already-in-state error for the
Stopped state. -/
def isAlreadyStoppedErr (e : GoErr) : Bool :=
  match e with
  | .hostAlreadyInState s => s == MachineState.stopped
  | _ => false

/-- StopHost (cluster.go:290-320): load the profile host; for Hyper-V first
try an ssh power off, whose failure is returned wrapped; call the backend
stop, treating the already-stopped report as success and wrapping any other
stop failure as a retriable error. -/
def StopHost (env : Env) : GoResult Unit × List Event :=
  let machineName := env.profileName
  let tL := [Event.apiLoad machineName]
  match env.api.load machineName with
  | .err e => (.err (.wrap ("load") e), tL)
  | .okErr _ e => (.err (.wrap ("load") e), tL)
  | .panics m => (.panics m, tL)
  | .ok h =>
    let po : GoResult Unit × List Event :=
      if h.DriverName == driver.HyperV then
        let r := trySSHPowerOff h
        (match r.1 with
         | .ok _ => .ok ()
         | .okErr _ e => .err (.wrap ("ssh power off") e)
         | .err e => .err (.wrap ("ssh power off") e)
         | .panics m => .panics m,
         r.2)
      else (.ok (), [])
    match po.1 with
    | .err e => (.err e, tL ++ po.2)
    | .okErr _ e => (.err e, tL ++ po.2)
    | .panics m => (.panics m, tL ++ po.2)
    | .ok _ =>
      let tS := tL ++ po.2 ++ [Event.driverStop]
      match h.hostStop with
      | .ok _ => (.ok (), tS)
      | .okErr _ e =>
        if isAlreadyStoppedErr e then (.ok (), tS)
        else (.err (.retriable (.wrap ("Stop: " ++ machineName) e)), tS)
      | .err e =>
        if isAlreadyStoppedErr e then (.ok (), tS)
        else (.err (.retriable (.wrap ("Stop: " ++ machineName) e)), tS)
      | .panics m => (.panics m, tS)

/-! ## GetHostStatus and DeleteHost (cluster.go:322-388) -/

/-- GetHostStatus (cluster.go:369-388): existence check, then load, then
driver state, returning the string form of the state; a missing host is the
None state string. -/
def GetHostStatus (env : Env) (machineName : String) : GoResult String × List Event :=
  let tE := [Event.apiExists machineName]
  match env.api.existsH machineName with
  | .err e => (.err (.wrap (machineName ++ " exists") e), tE)
  | .okErr _ e => (.err (.wrap (machineName ++ " exists") e), tE)
  | .panics m => (.panics m, tE)
  | .ok ex =>
    if !ex then (.ok (stateString MachineState.noneSt), tE)
    else
      let tL := tE ++ [Event.apiLoad machineName]
      match env.api.load machineName with
      | .err e => (.err (.wrap ("load") e), tL)
      | .okErr _ e => (.err (.wrap ("load") e), tL)
      | .panics m => (.panics m, tL)
      | .ok h =>
        let tS := tL ++ [Event.driverGetState]
        match h.Driver.getState with
        | .err e => (.err (.wrap ("state") e), tS)
        | .okErr _ e => (.err (.wrap ("state") e), tS)
        | .panics m => (.panics m, tS)
        | .ok s => (.ok (stateString s), tS)

/-- deleteOrphanedKIC (cluster.go:323-329): best-effort docker rm of an
orphaned container; the result is ignored entirely. -/
def deleteOrphanedKIC (env : Env) (name : String) : List Event :=
  let _ := env.execProgram ("docker") ["rm", "-f", "-v", name]
  [Event.execProg ("docker") ["rm", "-f", "-v", name]]

/-- DeleteHost (cluster.go:332-366): load the host, cleaning up an orphaned
container when the load fails with a nil host; query the status (a status
error is only warned about); a None status returns the distinct
does-not-exist error before any removal; Hyper-V gets a log-only ssh power
off; then the backend remove and the store remove, both fatal. The
continue-after-load-failure path dereferences the host record without a nil
check (cluster.go:351), a runtime panic when the load yielded no host. -/
def DeleteHost (env : Env) (machineName : String) : GoResult Unit × List Event :=
  let loadRes := env.api.load machineName
  let tL := [Event.apiLoad machineName]
  let hostOpt := loadRes.valueOpt
  let tOrphan :=
    if loadRes.errOpt.isSome && hostOpt.isNone then deleteOrphanedKIC env machineName
    else []
  let st := GetHostStatus env machineName
  let t0 := tL ++ tOrphan ++ st.2
  match st.1 with
  | .panics m => (.panics m, t0)
  | rest =>
    let status :=
      match rest with
      | .ok s => s
      | .okErr s _ => s
      | _ => ""
    if status == stateString MachineState.noneSt then
      (.err (.hostDoesNotExist machineName), t0)
    else
      match hostOpt with
      | none => (.panics nilDerefMsg, t0)
      | some h =>
        let tP :=
          if h.Driver.dname == driver.HyperV then (trySSHPowerOff h).2 else []
        let po :=
          if h.Driver.dname == driver.HyperV then (trySSHPowerOff h).1 else .ok ()
        match po with
        | .panics m => (.panics m, t0 ++ tP)
        | _ =>
          let t1 := t0 ++ tP ++ [Event.driverRemove]
          match h.Driver.removeDrv with
          | .err e => (.err (.wrap ("host remove") e), t1)
          | .okErr _ e => (.err (.wrap ("host remove") e), t1)
          | .panics m => (.panics m, t1)
          | .ok _ =>
            let t2 := t1 ++ [Event.apiRemove machineName]
            match env.api.remove machineName with
            | .err e => (.err (.wrap ("api remove") e), t2)
            | .okErr _ e => (.err (.wrap ("api remove") e), t2)
            | .panics m => (.panics m, t2)
            | .ok _ => (.ok (), t2)

/-! ## Network address resolver (cluster.go:595-650) -/

/-- The remainder of l after the first occurrence of pat, if any. -/
def afterFirst (pat : List Char) : List Char → Option (List Char)
  | [] => if pat.isEmpty then some [] else none
  | c :: cs =>
    if pat.isPrefixOf (c :: cs) then some ((c :: cs).drop pat.length)
    else afterFirst pat cs

/-- The segment of l before the first occurrence of pat, if any. -/
def upToFirst (pat : List Char) : List Char → Option (List Char)
  | [] => if pat.isEmpty then some [] else none
  | c :: cs =>
    if pat.isPrefixOf (c :: cs) then some []
    else (upToFirst pat cs).map (fun r => c :: r)

/-- Models the lazy one-group regex extractions of GetVMHostIP (patterns of
the shape pre(.*?)post): the text between the first occurrence of pre and
the earliest following occurrence of post. The no-newline constraint of the
dot is not modelled; no claim exercises these captures. -/
def captureLazy (pre post s : String) : Option String :=
  (afterFirst pre.data s.data).bind
    (fun rest => (upToFirst post.data rest).map (fun c => String.mk c))

/-- A dotted-quad field: nonempty decimal digits valued at most 255. -/
def ipv4Field (l : List Char) : Option Nat :=
  match l with
  | [] => none
  | ds =>
    match digitsValAux 0 ds with
    | some v => if v ≤ 255 then some v else none
    | none => none

/-- net.ParseIP restricted to the dotted-quad form (the only form reaching
it in this file); other forms yield the nil IP. The 16-byte internal
representation of a parsed IPv4 address is collapsed to its 4 bytes, which
is what every comparison here observes. -/
def parseIP (s : String) : Option (List Nat) :=
  match (splitOnChar ('.') s.data).mapM ipv4Field with
  | some [a, b, c, d] => some [a, b, c, d]
  | _ => none

/-- net.IP.To4: a 4-byte address itself, the low 4 bytes of a v4-mapped
16-byte address, nil otherwise. -/
def ipTo4 (ip : List Nat) : Option (List Nat) :=
  if ip.length == 4 then some ip
  else if ip.length == 16 && ip.take 12 == [0, 0, 0, 0, 0, 0, 0, 0, 0, 0, 255, 255] then
    some (ip.drop 12)
  else none

/-- The first IPv4 address among the *net.IPNet entries of an interface
address list (the loop of cluster.go:642-648). -/
def firstIPv4 : List NetAddr → Option (List Nat)
  | [] => none
  | .ipNet ip :: rest =>
    match ipTo4 ip with
    | some i4 => some i4
    | none => firstIPv4 rest
  | .otherAddr :: rest => firstIPv4 rest

/-- getIPForInterface (cluster.go:639-650): the interface lookup error and
the address enumeration error are both discarded. A failed lookup leaves a
nil interface handle; the Addrs method nil-checks its receiver (a method
call on a nil pointer does not itself panic in Go) and returns a nil slice
together with an error, which line 641 also discards, so the loop runs over
no addresses. The first IPv4 address found is returned; otherwise, whether
because the lookup failed, the enumeration failed, or no IPv4 address is
present, the address-not-found error naming the interface is returned. -/
def getIPForInterface (env : Env) (name : String) : GoResult (List Nat) × List Event :=
  let ev := [Event.ifaceLookup name]
  let addrs : List NetAddr :=
    match (env.interfaceByName name).valueOpt with
    | none => []
    | some i => i.addrs.1
  match firstIPv4 addrs with
  | some ip => (.ok ip, ev)
  | none => (.err (.simple ("Error finding IPV4 address for " ++ name)), ev)

/-- Modelled from the spec: driver.VBoxManagePath (not under src/), the
VirtualBox control tool name. -/
def VBoxManagePath : String := "VBoxManage"

/-- GetVMHostIP (cluster.go:596-636): per-kind strategy. KVM2 and HyperKit
return hardcoded literal addresses with no external access; Hyper-V scrapes
the virtual switch name from the raw driver data (a nil-index panic when
the pattern is absent) and resolves that interface; VirtualBox asks the
control tool for the host-only adapter and resolves it; VMware takes the
guest IP and replaces its last octet with 1 (on an unparseable guest IP the
source wraps a nil error, so it returns an empty IP with a nil error);
every other kind is an explicit unsupported-driver error. -/
def GetVMHostIP (env : Env) (h : Host) : GoResult (List Nat) × List Event :=
  if h.DriverName == driver.KVM2 then
    (.ok ((parseIP ("192.168.39.1")).getD []), [])
  else if h.DriverName == driver.HyperV then
    match captureLazy ("\"VSwitch\": \"") ("\",") h.RawDriver with
    | none => (.panics indexOutOfRangeMsg, [])
    | some sw =>
      let r := getIPForInterface env ("vEthernet (" ++ sw ++ ")")
      (match r.1 with
       | .ok ip => .ok ip
       | .okErr ip _ => .ok ip
       | .err e => .err (.wrap ("ip for interface (" ++ sw ++ ")") e)
       | .panics m => .panics m,
       r.2)
  else if h.DriverName == driver.VirtualBox then
    let tE := [Event.execProg VBoxManagePath ["showvminfo", h.Name, "--machinereadable"]]
    match env.execProgram VBoxManagePath ["showvminfo", h.Name, "--machinereadable"] with
    | .err e => (.err (.wrap ("vboxmanage") e), tE)
    | .okErr _ e => (.err (.wrap ("vboxmanage") e), tE)
    | .panics m => (.panics m, tE)
    | .ok outp =>
      match captureLazy ("hostonlyadapter2=\"") ("\"") outp with
      | none => (.panics indexOutOfRangeMsg, tE)
      | some iface =>
        let r := getIPForInterface env iface
        (match r.1 with
         | .ok ip => .ok ip
         | .okErr ip _ => .ok ip
         | .err e => .err (.wrap ("Error getting VM/Host IP address") e)
         | .panics m => .panics m,
         tE ++ r.2)
  else if h.DriverName == driver.HyperKit then
    (.ok ((parseIP ("192.168.64.1")).getD []), [])
  else if h.DriverName == driver.VMware then
    let tI := [Event.driverGetIP]
    match h.Driver.getIP with
    | .err e => (.err (.wrap ("Error getting VM IP address") e), tI)
    | .okErr _ e => (.err (.wrap ("Error getting VM IP address") e), tI)
    | .panics m => (.panics m, tI)
    | .ok ipStr =>
      match (parseIP ipStr).bind ipTo4 with
      | none => (.ok [], tI)
      | some vmIP =>
        (.ok [vmIP.getD 0 0, vmIP.getD 1 0, vmIP.getD 2 0, 1], tI)
  else
    (.err (.simple ("Error, attempted to get host ip address for unsupported driver")), [])

/-! ## createHost and StartHost (cluster.go:108-169, 507-559) -/

/-- The field initialization of cluster.go:530-532: cert and store paths
set to the minikube home, engine options computed from config. -/
def createHostSetup (h0 : Host) (miniPath : String) (cfg : MachineConfig) : Host :=
  { h0 with
    AuthCertDir := miniPath
    AuthStorePath := miniPath
    EngineOpts := engineOptions cfg }

/-- createHost (cluster.go:507-559): resolve the driver through the
registry (an empty descriptor is an unsupported-driver error), marshal its
config, request a new host record, fill its paths and engine options,
create it, create the required directories with the wrapped error computed
and discarded (cluster.go:540-542), show OS release information (bare
metal: local display only; remote non-container drivers: remote display
plus an up-front clock sync whose failure returns the host together with
the error), and persist. The deprecation notice, host info display and OS
release displays touch only the notification sink and logs and are not
recorded as events. -/
def createHost (env : Env) (cfg : MachineConfig) : GoResult Host × List Event :=
  match env.configJSON cfg.VMDriver with
  | none => (.err (.simple ("unsupported/missing driver: " ++ cfg.VMDriver)), [])
  | some cf =>
    match cf cfg with
    | .err e => (.err (.wrap ("marshal") e), [])
    | .okErr _ e => (.err (.wrap ("marshal") e), [])
    | .panics m => (.panics m, [])
    | .ok data =>
      let tN := [Event.apiNewHost cfg.VMDriver]
      match env.api.newHost cfg.VMDriver data with
      | .err e => (.err (.wrap ("new host") e), tN)
      | .okErr _ e => (.err (.wrap ("new host") e), tN)
      | .panics m => (.panics m, tN)
      | .ok h0 =>
        let h := createHostSetup h0 env.miniPath cfg
        let tC := tN ++ [Event.apiCreate]
        match env.api.create h with
        | .err e => (.err (.wrap ("create") e), tC)
        | .okErr _ e => (.err (.wrap ("create") e), tC)
        | .panics m => (.panics m, tC)
        | .ok _ =>
          let rd := createRequiredDirectories h
          let t3 := tC ++ rd.2
          let finish : List Event → GoResult Host × List Event := fun t =>
            match env.api.save h with
            | .ok _ => (.ok h, t ++ [Event.apiSave])
            | .okErr _ e => (.err (.wrap ("save") e), t ++ [Event.apiSave])
            | .err e => (.err (.wrap ("save") e), t ++ [Event.apiSave])
            | .panics m => (.panics m, t ++ [Event.apiSave])
          if BareMetal cfg.VMDriver then finish t3
          else if !BareMetal cfg.VMDriver && !IsKIC cfg.VMDriver then
            let c := ensureSyncedGuestClock h.runSSHCommand env.nowMeasure env.nowSet
            match c.1 with
            | .ok _ => finish (t3 ++ c.2)
            | .okErr _ e => (.okErr h e, t3 ++ c.2)
            | .err e => (.okErr h e, t3 ++ c.2)
            | .panics m => (.panics m, t3 ++ c.2)
          else finish t3

/-- The start-or-reuse step of the existing-host path (cluster.go:148-158):
a running host is reused; otherwise the backend start and a save, each
wrapped on failure. -/
def startExistingStep (env : Env) (h : Host) (s : MachineState) :
    GoResult Unit × List Event :=
  if s == MachineState.running then (.ok (), [])
  else
    match h.Driver.startDrv with
    | .err e => (.err (.wrap ("start") e), [Event.driverStart])
    | .okErr _ e => (.err (.wrap ("start") e), [Event.driverStart])
    | .panics m => (.panics m, [Event.driverStart])
    | .ok _ =>
      match env.api.save h with
      | .ok _ => (.ok (), [Event.driverStart, Event.apiSave])
      | .okErr _ e => (.err (.wrap ("save") e), [Event.driverStart, Event.apiSave])
      | .err e => (.err (.wrap ("save") e), [Event.driverStart, Event.apiSave])
      | .panics m => (.panics m, [Event.driverStart, Event.apiSave])

/-- The body of StartHost run under the machines lock (cluster.go:121-168):
a missing host is provisioned through createHost and returned directly; an
existing host is loaded, started if not running, and then configured
through the shared configureHost step. -/
def startHostLocked (env : Env) (cfg : MachineConfig) : GoResult Host × List Event :=
  let tE := [Event.apiExists cfg.Name]
  match env.api.existsH cfg.Name with
  | .err e => (.err (.wrap ("exists: " ++ cfg.Name) e), tE)
  | .okErr _ e => (.err (.wrap ("exists: " ++ cfg.Name) e), tE)
  | .panics m => (.panics m, tE)
  | .ok ex =>
    if !ex then
      let r := createHost env cfg
      (r.1, tE ++ r.2)
    else
      let tL := tE ++ [Event.apiLoad cfg.Name]
      match env.api.load cfg.Name with
      | .err e =>
        (.err (.wrap ("Error loading existing host. Please try running [minikube delete], then run [minikube start] again.") e), tL)
      | .okErr _ e =>
        (.err (.wrap ("Error loading existing host. Please try running [minikube delete], then run [minikube start] again.") e), tL)
      | .panics m => (.panics m, tL)
      | .ok h =>
        let tS := tL ++ [Event.driverGetState]
        match h.Driver.getState with
        | .err e => (.err (.wrap ("Error getting state for host") e), tS)
        | .okErr _ e => (.err (.wrap ("Error getting state for host") e), tS)
        | .panics m => (.panics m, tS)
        | .ok s =>
          let st := startExistingStep env h s
          match st.1 with
          | .err e => (.err e, tS ++ st.2)
          | .okErr _ e => (.err e, tS ++ st.2)
          | .panics m => (.panics m, tS ++ st.2)
          | .ok _ =>
            let e := engineOptions cfg
            let c := configureHost h e env.nowMeasure env.nowSet
            (c.1, tS ++ st.2 ++ c.2)

/-- StartHost (cluster.go:109-169): acquire the machines lock (failure is
wrapped and returned before any other step), run the locked body, and
release the lock on every exit path after acquisition. -/
def StartHost (env : Env) (cfg : MachineConfig) : GoResult Host × List Event :=
  let key := (acquireMachinesLockSpec env.miniPath cfg.Name).key
  let tA := [Event.acquireLock key]
  match env.acquireRes with
  | .err e => (.err (.wrap ("boot lock") e), tA)
  | .okErr _ e => (.err (.wrap ("boot lock") e), tA)
  | .panics m => (.panics m, tA)
  | .ok _ =>
    let r := startHostLocked env cfg
    (r.1, tA ++ r.2 ++ [Event.releaseLock])

/-! ## Concrete fixtures used by witnesses and counterexamples -/

/-- A driver oracle whose every operation succeeds. -/
def testDriverOps (dn : String) : DriverOps :=
  { dname := dn
    getState := .ok MachineState.running
    startDrv := .ok ()
    removeDrv := .ok ()
    getIP := .ok ("192.168.100.7")
    detectProvisioner := .ok ()
    provisionRun := .ok ()
    newSSHClient := .ok ()
    runCmd := fun _ => .ok ("") }

/-- A host whose every operation succeeds; its guest clock reads epoch 0. -/
def testHost (dn : String) : Host :=
  { Name := "minikube"
    DriverName := dn
    RawDriver := ""
    Driver := testDriverOps dn
    hostStop := .ok ()
    configureAuth := .ok ()
    runSSHCommand := fun _ => .ok ("0.0")
    AuthCertDir := ""
    AuthStorePath := ""
    EngineOpts :=
      { Env := [], InsecureRegistry := [], RegistryMirror := []
        ArbitraryFlags := [], InstallURL := "" } }

/-- A store oracle with one existing host record. -/
def testAPI (h : Host) : APIOracle :=
  { existsH := fun _ => .ok true
    load := fun _ => .ok h
    newHost := fun _ _ => .ok h
    create := fun _ => .ok ()
    save := fun _ => .ok ()
    remove := fun _ => .ok () }

/-- An environment in which every store and lock operation succeeds, both
clock samples read epoch 0 and local interface lookup fails. -/
def testEnv (h : Host) : Env :=
  { api := testAPI h
    acquireRes := .ok ()
    miniPath := "/home/user/.minikube"
    profileName := "minikube"
    configJSON := fun _ => some (fun _ => .ok ("driverdata"))
    nowMeasure := ⟨0⟩
    nowSet := ⟨0⟩
    interfaceByName := fun _ => .err (.simple ("no such interface"))
    execProgram := fun _ _ => .ok ("") }

/-- A machine config for the given driver kind, with no engine env vars. -/
def testCfg (dn : String) : MachineConfig :=
  { Name := "minikube", VMDriver := dn, DockerEnv := [], DockerOpt := []
    InsecureRegistry := [], RegistryMirror := [] }

/-- A remote runner answering the clock query with epoch 99 and failing
every other command. -/
def runC4 : String → GoResult String := fun c =>
  if c == clockQueryCmd then .ok ("99.0") else .err (.simple ("set failed"))

/-- A bare-metal host whose local command runner fails, so that required
directory creation fails. -/
def hostC2 : Host :=
  { testHost driver.NoneDriver with
    Driver :=
      { testDriverOps driver.NoneDriver with
        runCmd := fun _ => .err (.simple ("mkdir failed")) } }

/-- A kvm2 host for the new-provisioning path counterexample. -/
def hostC1 : Host := testHost driver.KVM2

/-- An environment in which the kvm2 host does not exist yet and every
provisioning step succeeds. -/
def envC1 : Env :=
  { testEnv hostC1 with
    api := { testAPI hostC1 with existsH := fun _ => .ok false } }

/-- An environment whose store fails every load with no host value. -/
def envC9 : Env :=
  { testEnv (testHost driver.VirtualBox) with
    api :=
      { testAPI (testHost driver.VirtualBox) with
        load := fun _ => .err (.simple ("machine does not exist")) } }

/-- A virtualbox host whose backend stop reports it is already stopped. -/
def hostC6 : Host :=
  { testHost driver.VirtualBox with
    hostStop := .err (.hostAlreadyInState MachineState.stopped) }

/-- An environment whose store has no record of any host. -/
def envC5 : Env :=
  { testEnv (testHost driver.VirtualBox) with
    api :=
      { testAPI (testHost driver.VirtualBox) with
        existsH := fun _ => .ok false } }

/-- An environment whose interface lookup succeeds but enumerates a single
address that is not a *net.IPNet entry, so no IPv4 address is found. -/
def envC10 : Env :=
  { testEnv (testHost driver.KVM2) with
    interfaceByName := fun _ => .ok { addrs := ([NetAddr.otherAddr], none) } }

/-! ## Helper lemmas -/

theorem absQ_eq_abs (q : ℚ) : absQ q = |q| := by
  unfold absQ
  rcases lt_or_le q 0 with h | h
  · rw [if_pos h, abs_of_neg h]
  · rw [if_neg (not_lt.mpr h), abs_of_nonneg h]

/-- The integer tolerance test equals the rational reading of the source
comparison math.Abs(d.Seconds()) is less than maxClockDesyncSeconds. -/
theorem desyncWithinTolerance_iff (d : Duration) :
    desyncWithinTolerance d = true ↔ absQ (durationSecondsQ d) < maxClockDesyncSeconds := by
  unfold desyncWithinTolerance durationSecondsQ maxClockDesyncSeconds
  rw [absQ_eq_abs]
  simp only [decide_eq_true_eq]
  rw [abs_div, abs_of_pos (show (0:ℚ) < 1000000000 by norm_num),
    div_lt_div_iff₀ (by norm_num) (by norm_num), ← Int.cast_abs, Int.abs_eq_natAbs,
    Int.cast_natCast]
  rw [show ((21:ℚ) * 1000000000) = ((21000000000 : ℕ) : ℚ) by norm_num]
  rw [show (((d.natAbs : ℕ) : ℚ) * 10) = ((d.natAbs * 10 : ℕ) : ℚ) by push_cast; ring]
  rw [Nat.cast_lt]
  omega

theorem guestClockDelta_snd (run : String → GoResult String) (t : GoTime) :
    (guestClockDelta run t).2 = [Event.ssh clockQueryCmd] := by
  unfold guestClockDelta
  dsimp only
  repeat' split
  all_goals rfl

theorem adjustGuestClock_snd (run : String → GoResult String) (t : GoTime) :
    (adjustGuestClock run t).2 = [Event.ssh (clockSetCmd t)] := by
  unfold adjustGuestClock
  dsimp only
  repeat' split
  all_goals rfl

theorem isCorrectionCmd_query : isCorrectionCmd (Event.ssh clockQueryCmd) = false := by decide

theorem isCorrectionCmd_set (t : GoTime) : isCorrectionCmd (Event.ssh (clockSetCmd t)) = true := by
  simp only [isCorrectionCmd, clockSetCmd, String.data_append]
  rw [List.isPrefixOf_iff_prefix]
  exact List.prefix_append _ _

theorem notWithin_of_not_lt (d : Duration)
    (hq : ¬ absQ (durationSecondsQ d) < maxClockDesyncSeconds) :
    desyncWithinTolerance d = false := by
  cases hbb : desyncWithinTolerance d
  · rfl
  · exact absurd ((desyncWithinTolerance_iff d).mp hbb) hq

theorem getHostStatus_snd (env : Env) (n : String) :
    (GetHostStatus env n).2 = [Event.apiExists n] ∨
    (GetHostStatus env n).2 = [Event.apiExists n, Event.apiLoad n] ∨
    (GetHostStatus env n).2 = [Event.apiExists n, Event.apiLoad n, Event.driverGetState] := by
  unfold GetHostStatus
  cases hex : env.api.existsH n with
  | ok b =>
    cases b
    · simp
    · cases hl : env.api.load n with
      | ok h => cases hs : h.Driver.getState <;> simp [hs]
      | okErr a e => simp
      | err e => simp
      | panics m => simp
  | okErr a e => simp
  | err e => simp
  | panics m => simp

theorem configureBegin_mem_configureHost (h : Host) (e : EngineOptions) (a b : GoTime) :
    Event.configureBegin ∈ (configureHost h e a b).2 := by
  unfold configureHost
  dsimp only
  repeat' split
  all_goals simp

theorem cb_not_mem_createRequiredDirectories (h : Host) :
    Event.configureBegin ∉ (createRequiredDirectories h).2 := by
  unfold createRequiredDirectories
  dsimp only
  repeat' split
  all_goals simp

theorem cb_not_mem_ensure (run : String → GoResult String) (a b : GoTime) :
    Event.configureBegin ∉ (ensureSyncedGuestClock run a b).2 := by
  unfold ensureSyncedGuestClock
  have h1 := guestClockDelta_snd run a
  have h2 := adjustGuestClock_snd run b
  dsimp only
  repeat' split
  all_goals simp [h1, h2]

theorem cb_not_mem_createHost (env : Env) (cfg : MachineConfig) :
    Event.configureBegin ∉ (createHost env cfg).2 := by
  unfold createHost
  dsimp only
  repeat' split
  all_goals simp_all [cb_not_mem_createRequiredDirectories, cb_not_mem_ensure]

theorem startHostLocked_exists_true_mem (env : Env) (cfg : MachineConfig) (h : Host)
    (hex : env.api.existsH cfg.Name = GoResult.ok true)
    (hsucc : (startHostLocked env cfg).1 = GoResult.ok h) :
    Event.configureBegin ∈ (startHostLocked env cfg).2 := by
  unfold startHostLocked at hsucc ⊢
  rw [hex] at hsucc ⊢
  simp only [Bool.not_true, Bool.false_eq_true, if_false] at hsucc ⊢
  cases hld : env.api.load cfg.Name with
  | ok h' =>
    cases hgs : h'.Driver.getState with
    | ok s =>
      cases hst : (startExistingStep env h' s).1 with
      | ok u => simp [hld, hgs, hst, configureBegin_mem_configureHost]
      | okErr v e => simp [hld, hgs, hst] at hsucc
      | err e => simp [hld, hgs, hst] at hsucc
      | panics m => simp [hld, hgs, hst] at hsucc
    | okErr v e => simp [hld, hgs] at hsucc
    | err e => simp [hld, hgs] at hsucc
    | panics m => simp [hld, hgs] at hsucc
  | okErr v e => simp [hld] at hsucc
  | err e => simp [hld] at hsucc
  | panics m => simp [hld] at hsucc

theorem cb_not_mem_startHostLocked_new (env : Env) (cfg : MachineConfig)
    (hex : env.api.existsH cfg.Name = GoResult.ok false) :
    Event.configureBegin ∉ (startHostLocked env cfg).2 := by
  unfold startHostLocked
  rw [hex]
  simp [cb_not_mem_createHost]

/-! ## Claim theorems -/

/-- C1 (amended): for every StartHost invocation that succeeds via the
existing-host path, the shared configure step is executed before the host
is returned; the newly-provisioned path returns the createHost result
directly and never executes the shared configure step. The claim as frozen
asserts the step for both paths; the counterexample
start_new_path_no_configure refutes the newly-provisioned half. -/
theorem start_configure_step_paths (env : Env) (cfg : MachineConfig) (h : Host) :
    ((StartHost env cfg).1 = GoResult.ok h → env.api.existsH cfg.Name = GoResult.ok true →
       Event.configureBegin ∈ (StartHost env cfg).2) ∧
    (env.api.existsH cfg.Name = GoResult.ok false →
       Event.configureBegin ∉ (StartHost env cfg).2) := by
  constructor
  · intro hsucc hex
    unfold StartHost at hsucc ⊢
    cases hacq : env.acquireRes with
    | ok u =>
      simp only [hacq] at hsucc ⊢
      simp only [List.mem_append]
      exact Or.inl (Or.inr (startHostLocked_exists_true_mem env cfg h hex hsucc))
    | okErr v e => simp [hacq] at hsucc
    | err e => simp [hacq] at hsucc
    | panics m => simp [hacq] at hsucc
  · intro hex
    unfold StartHost
    cases hacq : env.acquireRes <;>
      simp [hacq, cb_not_mem_startHostLocked_new env cfg hex]

/-- C1 witness: a successful existing-host StartHost run in which the
shared configure step appears in the trace. -/
theorem start_configure_step_paths_witness :
    Event.configureBegin ∈ (StartHost (testEnv (testHost driver.VirtualBox)) (testCfg driver.VirtualBox)).2 :=
  (start_configure_step_paths (testEnv (testHost driver.VirtualBox)) (testCfg driver.VirtualBox)
    (testHost driver.VirtualBox)).1 rfl rfl

/-- C1 counterexample: a StartHost invocation for a missing kvm2 host that
succeeds while its trace never enters the shared configure step and never
configures authentication, refuting the claim that the configure step runs
in the newly-provisioned path as well. -/
theorem start_new_path_no_configure :
    (StartHost envC1 (testCfg driver.KVM2)).1
        = GoResult.ok (createHostSetup hostC1 envC1.miniPath (testCfg driver.KVM2)) ∧
    Event.configureBegin ∉ (StartHost envC1 (testCfg driver.KVM2)).2 ∧
    Event.configureAuthEv ∉ (StartHost envC1 (testCfg driver.KVM2)).2 :=
  ⟨rfl, by decide, by decide⟩

/-- C2: when creation of the required guest directories fails but every
other step succeeds, StartHost still completes successfully on both the
existing-host path and the newly-provisioned path; the directory failure is
never returned as the operation error (the source computes the wrapped
error and discards it, cluster.go:194-196 and 540-542). -/
theorem start_dir_failure_nonfatal (env : Env) (cfg : MachineConfig) (h : Host) (er : GoErr)
    (hacq : env.acquireRes = GoResult.ok ())
    (hdirs : (createRequiredDirectories h).1 = GoResult.err er) :
    (env.api.existsH cfg.Name = GoResult.ok true →
     env.api.load cfg.Name = GoResult.ok h →
     h.Driver.getState = GoResult.ok MachineState.running →
     cfg.DockerEnv = [] →
     BareMetal h.Driver.dname = true →
     (StartHost env cfg).1 = GoResult.ok h) ∧
    (∀ cf data h0,
     env.api.existsH cfg.Name = GoResult.ok false →
     env.configJSON cfg.VMDriver = some cf →
     cf cfg = GoResult.ok data →
     env.api.newHost cfg.VMDriver data = GoResult.ok h0 →
     createHostSetup h0 env.miniPath cfg = h →
     env.api.create h = GoResult.ok () →
     BareMetal cfg.VMDriver = true →
     env.api.save h = GoResult.ok () →
     (StartHost env cfg).1 = GoResult.ok h) := by
  constructor
  · intro hex hld hgs henv hbm
    simp [StartHost, startHostLocked, startExistingStep, configureHost, configureHostAuthClock,
      engineOptions, hacq, hex, hld, hgs, henv, hbm]
  · intro cf data h0 hex hcf hdata hnew hsetup hcreate hbm hsave
    simp [StartHost, startHostLocked, createHost, hacq, hex, hcf, hdata, hnew, hsetup, hcreate,
      hbm, hsave]

/-- C2 witness: a StartHost run on a bare-metal host whose sudo mkdir
fails, returning success nonetheless. -/
theorem start_dir_failure_nonfatal_witness :
    (StartHost (testEnv hostC2) (testCfg driver.NoneDriver)).1 = GoResult.ok hostC2 :=
  (start_dir_failure_nonfatal (testEnv hostC2) (testCfg driver.NoneDriver) hostC2
    (GoErr.wrap ("sudo mkdir (none)") (GoErr.simple ("mkdir failed")))
    rfl (by decide)).1 rfl rfl rfl rfl (by decide)

/-- C3: for every measured guest-host delta strictly below 2.1 seconds in
absolute value no correction command is issued, and for every delta at or
beyond that bound exactly one correction command is issued, carrying the
local integer epoch second of the second time sample. -/
theorem clock_tolerance_boundary (run : String → GoResult String)
    (t1 t2 : GoTime) (d : Duration)
    (hmeas : (guestClockDelta run t1).1 = GoResult.ok d) :
    (absQ (durationSecondsQ d) < maxClockDesyncSeconds →
       (ensureSyncedGuestClock run t1 t2).2.filter isCorrectionCmd = []) ∧
    (¬ absQ (durationSecondsQ d) < maxClockDesyncSeconds →
       (ensureSyncedGuestClock run t1 t2).2.filter isCorrectionCmd
         = [Event.ssh (clockSetCmd t2)]) := by
  have hsnd := guestClockDelta_snd run t1
  constructor
  · intro hq
    have hb : desyncWithinTolerance d = true := (desyncWithinTolerance_iff d).mpr hq
    simp only [ensureSyncedGuestClock, hmeas, hb, hsnd, if_true]
    simp [List.filter, isCorrectionCmd_query]
  · intro hq
    have hb : desyncWithinTolerance d = false := notWithin_of_not_lt d hq
    simp only [ensureSyncedGuestClock, hmeas, hb, hsnd, Bool.false_eq_true, if_false]
    cases ha : (adjustGuestClock run t2).1 <;>
      simp [adjustGuestClock_snd, List.filter, isCorrectionCmd_query, isCorrectionCmd_set]

/-- C3 witness: a guest clock reading of epoch 5 against local epoch 0
yields delta 5s, beyond tolerance, and exactly one correction command
carrying the local integer epoch second 0. -/
theorem clock_tolerance_boundary_witness :
    (ensureSyncedGuestClock (fun _ => GoResult.ok ("5.0")) ⟨0⟩ ⟨0⟩).2.filter isCorrectionCmd
      = [Event.ssh ("sudo date -s @0")] := by
  have h := (clock_tolerance_boundary (fun _ => GoResult.ok ("5.0")) ⟨0⟩ ⟨0⟩ 5000000000
    (by decide)).2
    (fun hq => absurd ((desyncWithinTolerance_iff 5000000000).mpr hq) (by decide))
  exact h.trans (by decide)

/-- C4 (amended): every failure to measure the guest clock delta that
surfaces as a Go error, namely a remote query failure or a malformed output
whose integer fields fail to parse, yields a nil error from
ensureSyncedGuestClock; every failure of the correction command is returned
as the operation error. The frozen claim also covers malformed output with
no dot separator; there the source panics instead (counterexample
clock_malformed_output_panics). -/
theorem clock_failure_error_paths (run : String → GoResult String) (t1 t2 : GoTime) :
    (∀ e, (guestClockDelta run t1).1 = GoResult.err e →
       (ensureSyncedGuestClock run t1 t2).1 = GoResult.ok ()) ∧
    (∀ d e, (guestClockDelta run t1).1 = GoResult.ok d →
       ¬ absQ (durationSecondsQ d) < maxClockDesyncSeconds →
       run (clockSetCmd t2) = GoResult.err e →
       (ensureSyncedGuestClock run t1 t2).1
         = GoResult.err (GoErr.wrap ("adjusting system clock") e)) := by
  constructor
  · intro e he
    simp [ensureSyncedGuestClock, he]
  · intro d e hd hq hr
    have hb : desyncWithinTolerance d = false := notWithin_of_not_lt d hq
    simp [ensureSyncedGuestClock, hd, hb, adjustGuestClock, hr]

/-- C4 counterexample: the guest answers the clock query with the malformed
output 12345, which has no dot separator; the measurement does not produce
the advisory nil error the claim requires but an index-out-of-range panic
at the fraction field. -/
theorem clock_malformed_output_panics :
    (ensureSyncedGuestClock (fun _ => GoResult.ok ("12345")) ⟨0⟩ ⟨0⟩).1
        = GoResult.panics indexOutOfRangeMsg ∧
    (ensureSyncedGuestClock (fun _ => GoResult.ok ("12345")) ⟨0⟩ ⟨0⟩).1
        ≠ GoResult.ok () := by decide

/-- C4 witness: a measured delta of 99s with a failing correction command
returns the wrapped correction error. -/
theorem clock_failure_error_paths_witness :
    (ensureSyncedGuestClock runC4 ⟨0⟩ ⟨0⟩).1
      = GoResult.err (GoErr.wrap ("adjusting system clock") (GoErr.simple ("set failed"))) :=
  (clock_failure_error_paths runC4 ⟨0⟩ ⟨0⟩).2 99000000000 (GoErr.simple ("set failed"))
    (by decide)
    (fun hq => absurd ((desyncWithinTolerance_iff 99000000000).mpr hq) (by decide))
    (by decide)

/-- C5: when the status query resolves to the NonExistent state, DeleteHost
returns the distinct host-does-not-exist error and neither the backend
remove nor the store remove is ever invoked. -/
theorem delete_nonexistent_short_circuits (env : Env) (name : String)
    (hst : (GetHostStatus env name).1 = GoResult.ok (stateString MachineState.noneSt)) :
    (DeleteHost env name).1 = GoResult.err (GoErr.hostDoesNotExist name) ∧
    Event.driverRemove ∉ (DeleteHost env name).2 ∧
    Event.apiRemove name ∉ (DeleteHost env name).2 := by
  have hred : DeleteHost env name
      = (GoResult.err (GoErr.hostDoesNotExist name),
         [Event.apiLoad name]
           ++ (if (env.api.load name).errOpt.isSome && (env.api.load name).valueOpt.isNone
               then [Event.execProg ("docker") ["rm", "-f", "-v", name]] else [])
           ++ (GetHostStatus env name).2) := by
    simp [DeleteHost, hst, deleteOrphanedKIC, stateString]
  refine ⟨by rw [hred], ?_, ?_⟩ <;> rw [hred] <;>
    rcases getHostStatus_snd env name with h2 | h2 | h2 <;> rw [h2] <;>
    cases hco : (env.api.load name).errOpt.isSome && (env.api.load name).valueOpt.isNone <;>
    simp

/-- C5 witness: deleting a host absent from the store returns the distinct
does-not-exist error. -/
theorem delete_nonexistent_short_circuits_witness :
    (DeleteHost envC5 ("gone")).1 = GoResult.err (GoErr.hostDoesNotExist ("gone")) :=
  (delete_nonexistent_short_circuits envC5 ("gone") (by decide)).1

/-- C6: an invocation of StopHost that reaches the backend stop call
returns success when the stop error is the already-in-Stopped-state report,
and wraps every other stop error as a retriable error. -/
theorem stop_already_stopped_vs_retriable (env : Env) (h : Host)
    (hload : env.api.load env.profileName = GoResult.ok h)
    (hpo : (h.DriverName == driver.HyperV) = true → (trySSHPowerOff h).1 = GoResult.ok ()) :
    (h.hostStop = GoResult.err (GoErr.hostAlreadyInState MachineState.stopped) →
       (StopHost env).1 = GoResult.ok ()) ∧
    (∀ e, h.hostStop = GoResult.err e → isAlreadyStoppedErr e = false →
       (StopHost env).1
         = GoResult.err (GoErr.retriable (GoErr.wrap ("Stop: " ++ env.profileName) e))) := by
  constructor
  · intro hstop
    cases hbv : (h.DriverName == driver.HyperV) with
    | false => simp [StopHost, hload, hbv, hstop, isAlreadyStoppedErr]
    | true => simp [StopHost, hload, hbv, hpo hbv, hstop, isAlreadyStoppedErr]
  · intro e hstop hne
    cases hbv : (h.DriverName == driver.HyperV) with
    | false => simp [StopHost, hload, hbv, hstop, hne]
    | true => simp [StopHost, hload, hbv, hpo hbv, hstop, hne]

/-- C6 witness: stopping a virtualbox host already in the Stopped state
returns success with no error. -/
theorem stop_already_stopped_witness :
    (StopHost (testEnv hostC6)).1 = GoResult.ok () :=
  (stop_already_stopped_vs_retriable (testEnv hostC6) hostC6 rfl
    (fun hb => absurd hb (by decide))).1 rfl

/-- C7: the machines lock spec is keyed on the shared machines storage
directory alone, independent of the host name, and its acquisition timeout
is exactly 10 minutes (600000000000 nanoseconds, since a Go minute is
60000000000 nanoseconds). -/
theorem machines_lock_scope_and_timeout (mp n1 n2 : String) :
    (acquireMachinesLockSpec mp n1).key = (acquireMachinesLockSpec mp n2).key ∧
    (acquireMachinesLockSpec mp n1).key = filepathJoin mp ("machines") ∧
    (acquireMachinesLockSpec mp n1).timeout = 10 * 60 * 1000000000 := ⟨rfl, rfl, rfl⟩

/-- C8: GetVMHostIP returns the literal 192.168.39.1 for kvm2 and
192.168.64.1 for hyperkit with an empty trace, hence no network or backend
access, and every driver kind outside its five-entry strategy table gets
the explicit unsupported-driver error, also with no access. -/
theorem vm_host_ip_strategy (env : Env) (h : Host) :
    (h.DriverName = driver.KVM2 →
       GetVMHostIP env h = (GoResult.ok [192, 168, 39, 1], [])) ∧
    (h.DriverName = driver.HyperKit →
       GetVMHostIP env h = (GoResult.ok [192, 168, 64, 1], [])) ∧
    (h.DriverName ≠ driver.KVM2 → h.DriverName ≠ driver.HyperV →
     h.DriverName ≠ driver.VirtualBox → h.DriverName ≠ driver.HyperKit →
     h.DriverName ≠ driver.VMware →
       GetVMHostIP env h
         = (GoResult.err (GoErr.simple ("Error, attempted to get host ip address for unsupported driver")), [])) := by
  refine ⟨fun h1 => ?_, fun h2 => ?_, fun n1 n2 n3 n4 n5 => ?_⟩
  · simp only [GetVMHostIP, h1]
    rfl
  · simp only [GetVMHostIP, h2]
    rfl
  · have b1 : (h.DriverName == driver.KVM2) = false := beq_eq_false_iff_ne.mpr n1
    have b2 : (h.DriverName == driver.HyperV) = false := beq_eq_false_iff_ne.mpr n2
    have b3 : (h.DriverName == driver.VirtualBox) = false := beq_eq_false_iff_ne.mpr n3
    have b4 : (h.DriverName == driver.HyperKit) = false := beq_eq_false_iff_ne.mpr n4
    have b5 : (h.DriverName == driver.VMware) = false := beq_eq_false_iff_ne.mpr n5
    simp [GetVMHostIP, b1, b2, b3, b4, b5]

/-- C8 witness: the kvm2 and hyperkit literals and the unsupported-driver
error for a kind outside the strategy table, each with an empty trace. -/
theorem vm_host_ip_strategy_witness :
    GetVMHostIP (testEnv (testHost driver.KVM2)) (testHost driver.KVM2)
        = (GoResult.ok [192, 168, 39, 1], []) ∧
    GetVMHostIP (testEnv (testHost driver.HyperKit)) (testHost driver.HyperKit)
        = (GoResult.ok [192, 168, 64, 1], []) ∧
    GetVMHostIP (testEnv (testHost ("podman"))) (testHost ("podman"))
        = (GoResult.err (GoErr.simple ("Error, attempted to get host ip address for unsupported driver")), []) :=
  ⟨(vm_host_ip_strategy _ _).1 rfl,
   (vm_host_ip_strategy _ _).2.1 rfl,
   (vm_host_ip_strategy _ _).2.2 (by decide) (by decide) (by decide) (by decide) (by decide)⟩

/-- C9: in DeleteHost, when the load fails with no host value but the
status query does not resolve to NonExistent, the continue-after-load
path dereferences the absent host and panics; with status NonExistent the
same load failure is safe and yields the distinct does-not-exist error. -/
theorem delete_load_failure_deref (env : Env) (name : String) (e : GoErr)
    (hload : env.api.load name = GoResult.err e) :
    (env.api.existsH name = GoResult.ok true →
       (DeleteHost env name).1 = GoResult.panics nilDerefMsg) ∧
    (env.api.existsH name = GoResult.ok false →
       (DeleteHost env name).1 = GoResult.err (GoErr.hostDoesNotExist name)) := by
  constructor
  · intro hex
    have hst : (GetHostStatus env name).1 = GoResult.err (GoErr.wrap ("load") e) := by
      simp [GetHostStatus, hex, hload]
    simp [DeleteHost, hst, hload, GoResult.valueOpt, stateString]
  · intro hex
    have hst : (GetHostStatus env name).1 = GoResult.ok (stateString MachineState.noneSt) := by
      simp [GetHostStatus, hex]
    simp [DeleteHost, hst, stateString]

/-- C9 witness: a record the store reports as existing but fails to load
drives DeleteHost into the nil dereference panic. -/
theorem delete_load_failure_deref_witness :
    (DeleteHost envC9 ("minikube")).1 = GoResult.panics nilDerefMsg :=
  (delete_load_failure_deref envC9 ("minikube") (GoErr.simple ("machine does not exist")) rfl).1 rfl

/-- C10 (amended): getIPForInterface ignores the error results of the
interface lookup and the address enumeration, but a failed lookup does not
panic: the Addrs method nil-checks its receiver and returns an error that
line 641 also discards, leaving an empty address list, so a failed lookup
falls through to the address-not-found error return. The error return is
therefore reached exactly when no IPv4 address is among the enumerated
addresses, whether the lookup failed or succeeded. The frozen claim asserts
that a failed lookup uses the absent handle unguarded and never reaches the
error return; the counterexample iface_lookup_failure_reaches_not_found
refutes it. -/
theorem iface_lookup_error_fallthrough (env : Env) (name : String) :
    (∀ e, env.interfaceByName name = GoResult.err e →
       getIPForInterface env name
         = (GoResult.err (GoErr.simple ("Error finding IPV4 address for " ++ name)),
            [Event.ifaceLookup name])) ∧
    (∀ iface, env.interfaceByName name = GoResult.ok iface →
       getIPForInterface env name =
         ((match firstIPv4 iface.addrs.1 with
           | some ip => GoResult.ok ip
           | none => GoResult.err (GoErr.simple ("Error finding IPV4 address for " ++ name))),
          [Event.ifaceLookup name])) := by
  constructor
  · intro e he
    simp [getIPForInterface, he, GoResult.valueOpt, firstIPv4]
  · intro i hi
    simp only [getIPForInterface, hi, GoResult.valueOpt]
    cases hf : firstIPv4 i.addrs.1 <;> simp [hf]

/-- C10 counterexample: a concrete failed interface lookup under which
getIPForInterface does reach its address-not-found error return, refuting
the claim that a failed lookup never reaches it and that the error return
is reached only when the lookup succeeds. -/
theorem iface_lookup_failure_reaches_not_found :
    (testEnv (testHost driver.KVM2)).interfaceByName ("eth0")
        = GoResult.err (GoErr.simple ("no such interface")) ∧
    getIPForInterface (testEnv (testHost driver.KVM2)) ("eth0")
        = (GoResult.err (GoErr.simple ("Error finding IPV4 address for eth0")),
           [Event.ifaceLookup ("eth0")]) := by
  exact ⟨rfl, rfl⟩

/-- C10 witness: a successful lookup enumerating no IPv4 address reaches
the address-not-found error return. -/
theorem iface_lookup_error_fallthrough_witness :
    getIPForInterface envC10 ("eth1")
      = (GoResult.err (GoErr.simple ("Error finding IPV4 address for eth1")),
         [Event.ifaceLookup ("eth1")]) :=
  ((iface_lookup_error_fallthrough envC10 ("eth1")).2
    { addrs := ([NetAddr.otherAddr], none) } rfl).trans (by rfl)

end MinikubeCluster
